import Mathlib

/-!
Shallow embedding of the PDF-image-merger component (src/unnamed/part_000).

The component keeps four pieces of React state: the selected PDF file, the
ordered list of dropped images (each with a preview object URL), a busy flag
and an error message.  Three handlers act on it: `onPdfDrop`, `onImagesDrop`
and `handleMergePdf`; a `useEffect` keyed on the images array revokes preview
URLs, and a per-entry remove button filters the array.

External behaviour (file reads, pdf-lib parsing/embedding/serialisation, and
the DOM download trigger) is modelled by an `Env` record of fallible
functions; dimensions use `Rat`, with the literal 0.8 written as 4/5.
-/

set_option autoImplicit false

/-- A dropped file: its declared media type and an abstract content id. -/
structure File where
  type : String
  content : Nat
  deriving DecidableEq, Repr

/-- An accepted image entry: the file plus its preview object-URL handle
(`URL.createObjectURL`), modelled as a natural number. -/
structure ImageFile where
  file : File
  preview : Nat
  deriving DecidableEq, Repr

/-- Natural dimensions of a decoded image, as returned by
`embedJpg` / `embedPng`. -/
structure Img where
  width : Rat
  height : Rat
  deriving DecidableEq, Repr

/-- One `page.drawImage` call: the image and the x/y/width/height options. -/
structure DrawOp where
  img : Img
  x : Rat
  y : Rat
  w : Rat
  h : Rat
  deriving DecidableEq, Repr

/-- A page of the in-memory document: its size and the draw operations
performed on it. -/
structure Page where
  width : Rat
  height : Rat
  draws : List DrawOp
  deriving DecidableEq, Repr

/-- The pdf-lib `PDFDocument` model: its pages plus the default size used by
`addPage()` when called with no arguments. -/
structure PdfDoc where
  pages : List Page
  defaultW : Rat
  defaultH : Rat
  deriving DecidableEq, Repr

/-- The React state of the component: `pdfFile`, `images`, `loading`, `error`,
plus an allocation counter standing in for the freshness of
`URL.createObjectURL`. -/
structure AppState where
  pdfFile : Option File
  images : List ImageFile
  loading : Bool
  error : Option String
  nextHandle : Nat
  deriving DecidableEq, Repr

/-- Initial component state. -/
def initState : AppState :=
  { pdfFile := none, images := [], loading := false, error := none, nextHandle := 0 }

/-- The string literal checked by `onPdfDrop`. -/
def pdfMediaType : String := "application/pdf"

/-- Error message set by `onPdfDrop` on an invalid drop. -/
def invalidPdfMsg : String := "Please upload a valid PDF file"

/-- Error message set by `handleMergePdf` when preconditions fail. -/
def missingInputMsg : String := "Please upload both a PDF and at least one image"

/-- Error message set by the catch block of `handleMergePdf`. -/
def genericErrorMsg : String := "Error processing PDF. Please try again."

/-- `onPdfDrop`: if the batch is non-empty and the first file is declared
`application/pdf`, it becomes the new PDF and the error is cleared; otherwise
the error is set and the PDF is left as it was. -/
def onPdfDrop (acceptedFiles : List File) (s : AppState) : AppState :=
  match acceptedFiles with
  | f :: _ =>
      if f.type = pdfMediaType then
        { s with pdfFile := some f, error := none }
      else
        { s with error := some invalidPdfMsg }
  | [] => { s with error := some invalidPdfMsg }

/-- Predicate of the image-drop filter, the startsWith check against
the image-family media-type stem, expressed on the character lists. -/
def isImageFamily (f : File) : Bool :=
  "image/".data.isPrefixOf f.type.data

/-- Allocate one preview handle per surviving file, in order, starting at the
given counter (models the `map` that attaches `URL.createObjectURL(file)`). -/
def withPreviews : List File → Nat → List ImageFile
  | [], _ => []
  | f :: fs, n => ⟨f, n⟩ :: withPreviews fs (n + 1)

/-- `onImagesDrop`: keep only files whose declared media type starts with
`image/`, attach a fresh preview handle to each, append them to the working
set, and clear the error unconditionally. -/
def onImagesDrop (acceptedFiles : List File) (s : AppState) : AppState :=
  let imageFiles := withPreviews (acceptedFiles.filter isImageFamily) s.nextHandle
  { s with
      images := s.images ++ imageFiles
      error := none
      nextHandle := s.nextHandle + imageFiles.length }

/-- The remove button at index `i`: `images.filter((_, idx) => idx !== i)`. -/
def removeImageAt (i : Nat) (s : AppState) : AppState :=
  { s with images := s.images.eraseIdx i }

/-- External behaviour of file reads, pdf-lib, and the DOM download trigger.
Each fallible call is a function into `Except`; `clickFails` says whether the
anchor-element download sequence itself throws. -/
structure Env where
  readPdf : File → Except Unit (List Nat)
  loadPdf : List Nat → Except Unit PdfDoc
  readImage : ImageFile → Except Unit (List Nat)
  decodeJpg : List Nat → Except Unit Img
  decodePng : List Nat → Except Unit Img
  save : PdfDoc → Except Unit (List Nat)
  clickFails : Bool

/-- Read one image file and dispatch on its declared media type:
`image/jpeg` uses `embedJpg`, `image/png` uses `embedPng`, anything else is
`continue` (`.ok none`). -/
def embedOutcome (env : Env) (f : ImageFile) : Except Unit (Option Img) :=
  match env.readImage f with
  | .error e => .error e
  | .ok bytes =>
      if f.file.type = "image/jpeg" then
        (env.decodeJpg bytes).map some
      else if f.file.type = "image/png" then
        (env.decodePng bytes).map some
      else
        .ok none

/-- Append one `addPage()` page (default document size) and draw the image on
it centered at 0.8 = 4/5 of its natural dimensions. -/
def addCenteredPage (doc : PdfDoc) (img : Img) : PdfDoc :=
  { doc with
      pages := doc.pages ++
        [ { width := doc.defaultW
            height := doc.defaultH
            draws := [ { img := img
                         x := (doc.defaultW - img.width * (4 / 5)) / 2
                         y := (doc.defaultH - img.height * (4 / 5)) / 2
                         w := img.width * (4 / 5)
                         h := img.height * (4 / 5) } ] } ] }

/-- The image loop of `handleMergePdf`.  Returns the document reached (partial
when a step threw) together with a success flag; a thrown exception aborts the
remainder of the loop. -/
def processImagesT (env : Env) : PdfDoc → List ImageFile → PdfDoc × Bool
  | doc, [] => (doc, true)
  | doc, f :: rest =>
      match embedOutcome env f with
      | .error _ => (doc, false)
      | .ok none => processImagesT env doc rest
      | .ok (some img) => processImagesT env (addCenteredPage doc img) rest

/-- The successful embed result of one entry, when there is one. -/
def embedOk (env : Env) (f : ImageFile) : Option Img :=
  match embedOutcome env f with
  | .ok (some img) => some img
  | _ => none

/-- The images successfully embedded during the loop, in insertion order. -/
def embeddedImgs (env : Env) (files : List ImageFile) : List Img :=
  files.filterMap (embedOk env)

/-- Observable outcome of one `handleMergePdf` call: the final React state and
a record of the effects performed on the way. -/
structure MergeResult where
  state : AppState
  loadingWasSet : Bool
  readPdfAttempted : Bool
  parsed : Bool
  pagesAdded : Nat
  saved : Option (List Nat)
  urlCreated : Bool
  downloaded : Option (List Nat)
  urlRevoked : Bool
  failed : Bool
  deriving Repr

/-- `handleMergePdf`.  Guard: missing PDF or empty image set aborts with the
precondition message and does no work.  Otherwise: set loading, clear error,
read and parse the PDF, run the image loop, serialize, create the object URL,
run the anchor click, revoke the URL; any throw lands in the catch block
(generic message) and the finally block always clears loading. -/
def handleMergePdf (env : Env) (s : AppState) : MergeResult :=
  match s.pdfFile, s.images with
  | some pf, _ :: _ =>
      match env.readPdf pf with
      | .error _ =>
          { state := { s with loading := false, error := some genericErrorMsg }
            loadingWasSet := true, readPdfAttempted := true, parsed := false
            pagesAdded := 0, saved := none, urlCreated := false
            downloaded := none, urlRevoked := false, failed := true }
      | .ok pdfBytes =>
          match env.loadPdf pdfBytes with
          | .error _ =>
              { state := { s with loading := false, error := some genericErrorMsg }
                loadingWasSet := true, readPdfAttempted := true, parsed := false
                pagesAdded := 0, saved := none, urlCreated := false
                downloaded := none, urlRevoked := false, failed := true }
          | .ok doc =>
              let run := processImagesT env doc s.images
              let pa := run.fst.pages.length - doc.pages.length
              if run.snd then
                match env.save run.fst with
                | .error _ =>
                    { state := { s with loading := false, error := some genericErrorMsg }
                      loadingWasSet := true, readPdfAttempted := true, parsed := true
                      pagesAdded := pa, saved := none, urlCreated := false
                      downloaded := none, urlRevoked := false, failed := true }
                | .ok outBytes =>
                    if env.clickFails then
                      { state := { s with loading := false, error := some genericErrorMsg }
                        loadingWasSet := true, readPdfAttempted := true, parsed := true
                        pagesAdded := pa, saved := some outBytes, urlCreated := true
                        downloaded := none, urlRevoked := false, failed := true }
                    else
                      { state := { s with loading := false, error := none }
                        loadingWasSet := true, readPdfAttempted := true, parsed := true
                        pagesAdded := pa, saved := some outBytes, urlCreated := true
                        downloaded := some outBytes, urlRevoked := true, failed := false }
              else
                { state := { s with loading := false, error := some genericErrorMsg }
                  loadingWasSet := true, readPdfAttempted := true, parsed := true
                  pagesAdded := pa, saved := none, urlCreated := false
                  downloaded := none, urlRevoked := false, failed := true }
  | _, _ =>
      { state := { s with error := some missingInputMsg }
        loadingWasSet := false, readPdfAttempted := false, parsed := false
        pagesAdded := 0, saved := none, urlCreated := false
        downloaded := none, urlRevoked := false, failed := false }

/-- User interactions that touch the component state. -/
inductive UiEvent where
  | dropPdf (fs : List File)
  | dropImages (fs : List File)
  | removeImage (i : Nat)
  deriving Repr

/-- Apply one interaction through the corresponding handler. -/
def applyUiEvent (s : AppState) : UiEvent → AppState
  | .dropPdf fs => onPdfDrop fs s
  | .dropImages fs => onImagesDrop fs s
  | .removeImage i => removeImageAt i s

/-- The effect of `useEffect(() => () => images.forEach(revoke), [images])`:
when a commit replaces the `images` array (both image handlers call
`setImages` with a fresh array; the PDF handler does not), the cleanup of the
previous effect revokes every preview handle of the PREVIOUS array. -/
def revokesFor (s : AppState) : UiEvent → List Nat
  | .dropPdf _ => []
  | .dropImages _ => s.images.map ImageFile.preview
  | .removeImage _ => s.images.map ImageFile.preview

/-- Run a sequence of interactions from a state, collecting the preview
handles revoked by the effect cleanups along the way. -/
def runEvents : AppState → List UiEvent → AppState × List Nat
  | s, [] => (s, [])
  | s, e :: es =>
      let out := runEvents (applyUiEvent s e) es
      (out.fst, revokesFor s e ++ out.snd)

/-- Run interactions and then unmount: the final cleanup revokes the handles
of the last `images` array. -/
def runWithTeardown (s : AppState) (es : List UiEvent) : AppState × List Nat :=
  let out := runEvents s es
  (out.fst, out.snd ++ out.fst.images.map ImageFile.preview)

/-! ### Concrete fixtures used by witnesses and counterexamples -/

/-- A PDF file fixture. -/
def pdfF : File := { type := "application/pdf", content := 10 }

/-- A PNG image entry fixture (preview handle 0). -/
def pngImg : ImageFile := { file := { type := "image/png", content := 0 }, preview := 0 }

/-- A JPEG image entry fixture (preview handle 1). -/
def jpgImg : ImageFile := { file := { type := "image/jpeg", content := 1 }, preview := 1 }

/-- A GIF image entry fixture (image-family but not embeddable). -/
def gifImg : ImageFile := { file := { type := "image/gif", content := 2 }, preview := 2 }

/-- A one-page document with US-Letter default page size. -/
def basePdfDoc : PdfDoc :=
  { pages := [ { width := 612, height := 792, draws := [] } ]
    defaultW := 612, defaultH := 792 }

/-- An environment in which every external call succeeds: PNGs decode to
200 by 80, JPEGs to 100 by 50, and serialisation returns the page count. -/
def okEnv : Env :=
  { readPdf := fun f => .ok [f.content]
    loadPdf := fun _ => .ok basePdfDoc
    readImage := fun i => .ok [i.file.content]
    decodeJpg := fun _ => .ok { width := 100, height := 50 }
    decodePng := fun _ => .ok { width := 200, height := 80 }
    save := fun d => .ok [d.pages.length]
    clickFails := false }

/-- Like `okEnv`, but the anchor-element download trigger itself throws. -/
def clickFailEnv : Env := { okEnv with clickFails := true }

/-- A ready-to-merge state: a PDF plus a PNG-then-JPEG working set. -/
def demoState : AppState :=
  { pdfFile := some pdfF, images := [pngImg, jpgImg]
    loading := false, error := none, nextHandle := 2 }

/-- The interaction sequence that drops one PNG and then one JPEG onto a
freshly mounted component. -/
def twoDropEvents : List UiEvent :=
  [UiEvent.dropImages [pngImg.file], UiEvent.dropImages [jpgImg.file]]

/-! ### Helper lemmas -/

/-- Attaching preview handles leaves the underlying files unchanged. -/
theorem withPreviews_map_file (l : List File) (n : Nat) :
    (withPreviews l n).map ImageFile.file = l := by
  induction l generalizing n with
  | nil => rfl
  | cons a t ih => simp [withPreviews, ih]

/-! ### Claims -/

/-- Claim C1: whenever the image loop completes successfully, the resulting
document keeps the default page size of the input document and its pages are
the original pages followed, in insertion order, by exactly one page per
successfully embedded image; each such page has the default size (not the
size of the image) and carries a single draw of that image at 4/5 = 0.8 of
its natural dimensions, horizontally offset by (page width minus scaled
width) / 2 and vertically by (page height minus scaled height) / 2. -/
theorem merge_loop_appends_centered_default_pages (env : Env) (doc : PdfDoc)
    (files : List ImageFile) (h : (processImagesT env doc files).snd = true) :
    (processImagesT env doc files).fst.defaultW = doc.defaultW ∧
    (processImagesT env doc files).fst.defaultH = doc.defaultH ∧
    (processImagesT env doc files).fst.pages =
      doc.pages ++ (embeddedImgs env files).map (fun img =>
        { width := doc.defaultW
          height := doc.defaultH
          draws := [ { img := img
                       x := (doc.defaultW - img.width * (4 / 5)) / 2
                       y := (doc.defaultH - img.height * (4 / 5)) / 2
                       w := img.width * (4 / 5)
                       h := img.height * (4 / 5) } ] }) := by
  induction files generalizing doc with
  | nil => simp [processImagesT, embeddedImgs]
  | cons f rest ih =>
    rcases hE : embedOutcome env f with e | oi
    · simp [processImagesT, hE] at h
    · rcases oi with _ | img
      · have h' : (processImagesT env doc rest).snd = true := by
          simpa [processImagesT, hE] using h
        have hrw : processImagesT env doc (f :: rest) = processImagesT env doc rest := by
          simp [processImagesT, hE]
        have hemb : embeddedImgs env (f :: rest) = embeddedImgs env rest := by
          simp [embeddedImgs, List.filterMap_cons, embedOk, hE]
        rw [hrw, hemb]
        exact ih doc h'
      · have h' : (processImagesT env (addCenteredPage doc img) rest).snd = true := by
          simpa [processImagesT, hE] using h
        have hrw : processImagesT env doc (f :: rest)
            = processImagesT env (addCenteredPage doc img) rest := by
          simp [processImagesT, hE]
        have hemb : embeddedImgs env (f :: rest) = img :: embeddedImgs env rest := by
          simp [embeddedImgs, List.filterMap_cons, embedOk, hE]
        have ihx := ih (addCenteredPage doc img) h'
        rw [hrw, hemb]
        refine ⟨?_, ?_, ?_⟩
        · rw [ihx.1]; rfl
        · rw [ihx.2.1]; rfl
        · rw [ihx.2.2]
          simp [addCenteredPage, List.append_assoc]

/-- Witness for C1: the end-to-end scenario of the claim.  A one-page
document plus a PNG and a JPEG, in drop order, embeds successfully and the
conclusion of the theorem holds there: the result has the original page
followed by one centered default-size page per image, hence 3 pages. -/
theorem merge_loop_appends_centered_default_pages_witness :
    ((processImagesT okEnv basePdfDoc [pngImg, jpgImg]).snd = true ∧
      (processImagesT okEnv basePdfDoc [pngImg, jpgImg]).fst.pages.length = 3 ∧
      (processImagesT okEnv basePdfDoc [pngImg, jpgImg]).fst.pages.take 1 = basePdfDoc.pages) ∧
    ((processImagesT okEnv basePdfDoc [pngImg, jpgImg]).fst.defaultW = basePdfDoc.defaultW ∧
      (processImagesT okEnv basePdfDoc [pngImg, jpgImg]).fst.defaultH = basePdfDoc.defaultH ∧
      (processImagesT okEnv basePdfDoc [pngImg, jpgImg]).fst.pages =
        basePdfDoc.pages ++ (embeddedImgs okEnv [pngImg, jpgImg]).map (fun img =>
          { width := basePdfDoc.defaultW
            height := basePdfDoc.defaultH
            draws := [ { img := img
                         x := (basePdfDoc.defaultW - img.width * (4 / 5)) / 2
                         y := (basePdfDoc.defaultH - img.height * (4 / 5)) / 2
                         w := img.width * (4 / 5)
                         h := img.height * (4 / 5) } ] })) :=
  ⟨⟨by decide, by decide, by decide⟩,
    merge_loop_appends_centered_default_pages okEnv basePdfDoc [pngImg, jpgImg] (by decide)⟩

/-- Claim C2: for an entry whose bytes are read successfully, the loop
dispatches on the declared media type: a JPEG entry is embedded through the
JPEG decoder, a PNG entry through the PNG decoder, and an entry of any other
media type is skipped entirely: its embed result is `none`, no error is
raised, and the loop continues on the remaining entries as if the entry were
absent (so no page is added for it). -/
theorem merge_dispatch_on_media_type (env : Env) (doc : PdfDoc) (f : ImageFile)
    (bytes : List Nat) (rest : List ImageFile)
    (hr : env.readImage f = .ok bytes) :
    (f.file.type = "image/jpeg" → embedOutcome env f = (env.decodeJpg bytes).map some) ∧
    (f.file.type = "image/png" → embedOutcome env f = (env.decodePng bytes).map some) ∧
    (f.file.type ≠ "image/jpeg" → f.file.type ≠ "image/png" →
        embedOutcome env f = .ok none ∧
        processImagesT env doc (f :: rest) = processImagesT env doc rest) := by
  refine ⟨?_, ?_, ?_⟩
  · intro ht; simp [embedOutcome, hr, ht]
  · intro ht; simp [embedOutcome, hr, ht]
  · intro h1 h2
    have he : embedOutcome env f = .ok none := by simp [embedOutcome, hr, h1, h2]
    exact ⟨he, by simp [processImagesT, he]⟩

/-- Witness for C2: a GIF entry (image-family but neither JPEG nor PNG) is
read successfully and then skipped without contributing a page. -/
theorem merge_dispatch_on_media_type_witness :
    okEnv.readImage gifImg = .ok [2] ∧
    ((gifImg.file.type = "image/jpeg" →
        embedOutcome okEnv gifImg = (okEnv.decodeJpg [2]).map some) ∧
      (gifImg.file.type = "image/png" →
        embedOutcome okEnv gifImg = (okEnv.decodePng [2]).map some) ∧
      (gifImg.file.type ≠ "image/jpeg" → gifImg.file.type ≠ "image/png" →
          embedOutcome okEnv gifImg = .ok none ∧
          processImagesT okEnv basePdfDoc (gifImg :: []) = processImagesT okEnv basePdfDoc [])) :=
  ⟨rfl, merge_dispatch_on_media_type okEnv basePdfDoc gifImg [2] [] rfl⟩

/-- Claim C3: when the PDF is unset or the working set is empty, triggering
the merge only sets the missing-input error message: the busy flag is never
set (and keeps its previous value), no file is read, nothing is parsed, no
page is added, and nothing is downloaded. -/
theorem merge_missing_input_aborts_without_work (env : Env) (s : AppState)
    (h : s.pdfFile = none ∨ s.images = []) :
    (handleMergePdf env s).state.error = some missingInputMsg ∧
    (handleMergePdf env s).loadingWasSet = false ∧
    (handleMergePdf env s).state.loading = s.loading ∧
    (handleMergePdf env s).readPdfAttempted = false ∧
    (handleMergePdf env s).parsed = false ∧
    (handleMergePdf env s).pagesAdded = 0 ∧
    (handleMergePdf env s).downloaded = none := by
  rcases h with h | h
  · cases hi : s.images <;> simp [handleMergePdf, h, hi]
  · cases hp : s.pdfFile <;> simp [handleMergePdf, h, hp]

/-- Witness for C3: triggering the merge on the initial state (no PDF, no
images) aborts with the missing-input message and does no work. -/
theorem merge_missing_input_aborts_without_work_witness :
    (initState.pdfFile = none ∨ initState.images = []) ∧
    ((handleMergePdf okEnv initState).state.error = some missingInputMsg ∧
      (handleMergePdf okEnv initState).loadingWasSet = false ∧
      (handleMergePdf okEnv initState).state.loading = initState.loading ∧
      (handleMergePdf okEnv initState).readPdfAttempted = false ∧
      (handleMergePdf okEnv initState).parsed = false ∧
      (handleMergePdf okEnv initState).pagesAdded = 0 ∧
      (handleMergePdf okEnv initState).downloaded = none) :=
  ⟨Or.inl rfl, merge_missing_input_aborts_without_work okEnv initState (Or.inl rfl)⟩

/-- Claim C4: once the preconditions hold, the merge ends with the busy flag
false for every possible behaviour of the external environment (every failure
of read, parse, embed or serialize is absorbed inside the handler, which is a
total function); when the catch block ran, the error is the single generic
message, and on success the error is clear. -/
theorem merge_always_clears_busy_and_catches_failures (env : Env) (s : AppState)
    (pf : File) (i0 : ImageFile) (rest : List ImageFile)
    (hpdf : s.pdfFile = some pf) (himgs : s.images = i0 :: rest) :
    (handleMergePdf env s).state.loading = false ∧
    ((handleMergePdf env s).failed = true →
        (handleMergePdf env s).state.error = some genericErrorMsg) ∧
    ((handleMergePdf env s).failed = false →
        (handleMergePdf env s).state.error = none) := by
  simp only [handleMergePdf, hpdf, himgs]
  rcases h1 : env.readPdf pf with e | bytes
  · simp [h1]
  · rcases h2 : env.loadPdf bytes with e | doc
    · simp [h1, h2]
    · cases h3 : (processImagesT env doc (i0 :: rest)).snd
      · simp [h1, h2, h3]
      · rcases h4 : env.save (processImagesT env doc (i0 :: rest)).fst with e | outBytes
        · simp [h1, h2, h3, h4]
        · cases h5 : env.clickFails
          · simp [h1, h2, h3, h4, h5]
          · simp [h1, h2, h3, h4, h5]

/-- Witness for C4: with a PDF and two images present, a fully successful run
ends idle with no error, and the failure implication is vacuous there. -/
theorem merge_always_clears_busy_and_catches_failures_witness :
    demoState.pdfFile = some pdfF ∧ demoState.images = pngImg :: [jpgImg] ∧
    ((handleMergePdf okEnv demoState).state.loading = false ∧
      ((handleMergePdf okEnv demoState).failed = true →
          (handleMergePdf okEnv demoState).state.error = some genericErrorMsg) ∧
      ((handleMergePdf okEnv demoState).failed = false →
          (handleMergePdf okEnv demoState).state.error = none)) :=
  ⟨rfl, rfl,
    merge_always_clears_busy_and_catches_failures okEnv demoState pdfF pngImg [jpgImg] rfl rfl⟩

/-- Claim C5: anything offered for download is exactly the byte buffer that a
successful serialisation produced, and a run that delivers a download did not
fail at any earlier step; contrapositively, a run in which any step before or
during serialisation failed delivers nothing. -/
theorem download_only_after_successful_save (env : Env) (s : AppState)
    (bs : List Nat) (h : (handleMergePdf env s).downloaded = some bs) :
    (handleMergePdf env s).saved = some bs ∧ (handleMergePdf env s).failed = false := by
  rcases hp : s.pdfFile with _ | pf
  · simp [handleMergePdf, hp] at h
  · rcases hi : s.images with _ | ⟨i0, rest⟩
    · simp [handleMergePdf, hp, hi] at h
    · simp only [handleMergePdf, hp, hi] at h ⊢
      rcases h1 : env.readPdf pf with e | bytes
      · simp [h1] at h
      · rcases h2 : env.loadPdf bytes with e | doc
        · simp [h1, h2] at h
        · cases h3 : (processImagesT env doc (i0 :: rest)).snd
          · simp [h1, h2, h3] at h
          · rcases h4 : env.save (processImagesT env doc (i0 :: rest)).fst with e | outBytes
            · simp [h1, h2, h3, h4] at h
            · cases h5 : env.clickFails
              · simp [h1, h2, h3, h4, h5] at h ⊢
                simp [h]
              · simp [h1, h2, h3, h4, h5] at h

/-- Witness for C5: the successful demo run downloads exactly the serialized
three-page document. -/
theorem download_only_after_successful_save_witness :
    (handleMergePdf okEnv demoState).downloaded = some [3] ∧
    ((handleMergePdf okEnv demoState).saved = some [3] ∧
      (handleMergePdf okEnv demoState).failed = false) :=
  ⟨by decide, download_only_after_successful_save okEnv demoState [3] (by decide)⟩

/-- Claim C6: a PDF drop replaces the stored PDF and clears the error exactly
when the batch is non-empty and its first file is declared
`application/pdf`; otherwise the whole state is unchanged except that the
error becomes the invalid-PDF message (in particular the stored PDF is left
untouched). -/
theorem pdf_drop_validation (s : AppState) (fs : List File) :
    onPdfDrop fs s =
      (match fs.head? with
       | some f =>
           if f.type = pdfMediaType then { s with pdfFile := some f, error := none }
           else { s with error := some invalidPdfMsg }
       | none => { s with error := some invalidPdfMsg }) := by
  cases fs <;> simp [onPdfDrop]

/-- Claim C7: after an image drop the working set is the prior set, in its
original order, followed by entries whose underlying files are exactly the
dropped files with an image-family media type, in dropped order; nothing is
deduplicated and no prior entry moves. -/
theorem image_drop_appends_filtered_in_order (fs : List File) (s : AppState) :
    ((onImagesDrop fs s).images).map ImageFile.file
      = s.images.map ImageFile.file ++ fs.filter (fun f => isImageFamily f) ∧
    ((onImagesDrop fs s).images).take s.images.length = s.images := by
  constructor
  · simp [onImagesDrop, withPreviews_map_file]
  · simp [onImagesDrop, List.take_left]

/-- Claim C8 is violated by the code: the cleanup of the effect keyed on the
images array revokes every preview handle of the previous array on each
change of the array.  Concretely, dropping one PNG and then a second image
leaves both entries in the working set (previews 0 and 1) while handle 0 has
already been revoked by the cleanup that ran on the second drop; after
teardown, handle 0 has been revoked twice rather than exactly once. -/
theorem preview_handle_revoked_while_entry_present :
    ((runEvents initState twoDropEvents).fst.images.map ImageFile.preview = [0, 1] ∧
      0 ∈ (runEvents initState twoDropEvents).snd) ∧
    (runWithTeardown initState twoDropEvents).snd.count 0 = 2 := by
  decide

/-- Claim C9 as stated is false on the code: when the anchor-element download
trigger itself throws, the catch block is reached without
`URL.revokeObjectURL` ever running, so a save URL was created on this exit
path of the download step but never released. -/
theorem save_url_not_revoked_when_click_throws :
    (handleMergePdf clickFailEnv demoState).urlCreated = true ∧
    (handleMergePdf clickFailEnv demoState).urlRevoked = false ∧
    (handleMergePdf clickFailEnv demoState).failed = true := by
  decide

/-- Claim C9 amended: the save URL is released whenever the download trigger
sequence completes normally; an exit of the download step through a throwing
trigger skips the release. -/
theorem save_url_revoked_when_click_succeeds (env : Env) (s : AppState)
    (hc : (handleMergePdf env s).urlCreated = true) (hclick : env.clickFails = false) :
    (handleMergePdf env s).urlRevoked = true := by
  rcases hp : s.pdfFile with _ | pf
  · simp [handleMergePdf, hp] at hc
  · rcases hi : s.images with _ | ⟨i0, rest⟩
    · simp [handleMergePdf, hp, hi] at hc
    · simp only [handleMergePdf, hp, hi] at hc ⊢
      rcases h1 : env.readPdf pf with e | bytes
      · simp [h1] at hc
      · rcases h2 : env.loadPdf bytes with e | doc
        · simp [h1, h2] at hc
        · cases h3 : (processImagesT env doc (i0 :: rest)).snd
          · simp [h1, h2, h3] at hc
          · rcases h4 : env.save (processImagesT env doc (i0 :: rest)).fst with e | outBytes
            · simp [h1, h2, h3, h4] at hc
            · simp [h1, h2, h3, h4, hclick]

/-- Witness for the amended C9: the fully successful demo run creates the
save URL and releases it. -/
theorem save_url_revoked_when_click_succeeds_witness :
    (handleMergePdf okEnv demoState).urlCreated = true ∧
    okEnv.clickFails = false ∧
    (handleMergePdf okEnv demoState).urlRevoked = true :=
  ⟨by decide, rfl, save_url_revoked_when_click_succeeds okEnv demoState (by decide) rfl⟩

/-- Claim C10: every image drop clears the error unconditionally, even when
no dropped file passes the image-family filter, and the handler reports
nothing else about an empty contribution. -/
theorem image_drop_always_clears_error (fs : List File) (s : AppState) :
    (onImagesDrop fs s).error = none := by
  simp [onImagesDrop]
